import Mathlib

/-
Verification of the filebrowser SDK against its specification.

The Go sources are shallowly embedded: every effectful call (HTTP exchange,
filesystem access) is answered by an explicit environment `Env`, and every
operation additionally returns the list of outgoing requests it performed
(its event trace), so that properties such as "no login is performed" or
"the request body omits the expiration fields" are statable.
-/

namespace FilebrowserSDK

/-- ShareParams mirrors util.go: parameters for sharing files
(Expires is Go int64, modelled as Int). -/
structure ShareParams where
  Expires : Int
  Password : String
  Unit : String
  deriving DecidableEq, Repr

/-- ActionParams mirrors util.go: parameters for file operations.
The Go field named ShareParams is called shareParams here because a Lean
field may not shadow the name of its own type. -/
structure ActionParams where
  shareParams : ShareParams
  FileSize : Int
  Force : Bool
  deriving DecidableEq, Repr

/-- ShareResult mirrors util.go: the URLs for viewing and downloading shared files. -/
structure ShareResult where
  ViewUrl : String
  DownloadUrl : String
  deriving DecidableEq, Repr

/-- FilebrowserAuth mirrors util.go: authentication credentials. -/
structure FilebrowserAuth where
  URL : String
  Username : String
  Password : String
  deriving DecidableEq, Repr

/-- ReqShare mirrors the client source: share request body
(Expires is a string there, produced by Sprintf). -/
structure ReqShare where
  Expires : String
  Password : String
  Unit : String
  deriving DecidableEq, Repr

/-- RespResource mirrors the client source: resource information.
The Go field Type is called typ here (Type is a Lean keyword). -/
structure RespResource where
  NotExist : Bool
  Path : String
  Name : String
  Size : Int
  Extension : String
  Modified : String
  Mode : Int
  IsDir : String
  IsSymlink : String
  typ : String
  deriving DecidableEq, Repr

/-- RespShare mirrors the client source: share response data. -/
structure RespShare where
  Hash : String
  Path : String
  deriving DecidableEq, Repr

/-- Client mirrors the client source. The Go struct embeds ReqLogin;
its promoted fields Username and Password are inlined here. -/
structure Client where
  URL : String
  Username : String
  Password : String
  Token : String
  deriving DecidableEq, Repr

/-- HttpResp models the part of an HTTP response the SDK reads:
the status code and the body text. -/
structure HttpResp where
  StatusCode : Int
  Body : String
  deriving DecidableEq, Repr

/-- Event records one outgoing request performed by the SDK: the login
exchange, the metadata query, the delete, the chunked-upload exchange,
the share request (with its body), or the file download. -/
inductive Event where
  | loginReq : Event
  | getResourceReq : String → Event
  | deleteReq : String → Event
  | uploadReq : String → Event
  | shareReq : String → ReqShare → Event
  | downloadReq : String → String → Event
  deriving DecidableEq, Repr

/-- Env answers every effectful call the SDK makes. Each remote field gives
the outcome of one request/response exchange (an error models a transport
failure, otherwise a status code and the decoded body); the filesystem
fields model os.TempDir, fileutil.IsExist, fileutil.FileSize,
fileutil.CreateDir, os.Stat and netutil.DownloadFile; tusUpload collapses
the external tus-library exchange (client creation, file open, session
creation, transfer) into one call whose error already names its stage. -/
structure Env where
  tempDir : String
  fileExists : String → Bool
  fileSize : String → Except String Int
  createDir : String → Except String Unit
  downloadFile : String → String → Except String Unit
  statExists : String → Bool
  login : Except String HttpResp
  getResource : String → Except String (Int × RespResource)
  deleteResource : String → Except String Int
  tusUpload : String → String → Except String Unit
  share : String → ReqShare → Except String (Int × RespShare)

/-- Validate mirrors util.go lines 37-48: credentials are valid when all
three fields are non-empty. -/
def FilebrowserAuth.Validate (auth : FilebrowserAuth) : Except String Unit :=
  if auth.URL = "" then .error "URL cannot be empty"
  else if auth.Username = "" then .error "username cannot be empty"
  else if auth.Password = "" then .error "password cannot be empty"
  else .ok ()

/-- Validate mirrors the client source lines 59-70. -/
def Client.Validate (c : Client) : Except String Unit :=
  if c.URL = "" then .error "URL cannot be empty"
  else if c.Username = "" then .error "username cannot be empty"
  else if c.Password = "" then .error "password cannot be empty"
  else .ok ()

/-- Login mirrors the client source lines 73-97: validate, post the
credentials, require status 200, store the response body as the token,
and reject an empty token. -/
def Client.Login (c : Client) (env : Env) :
    Except String Unit × Client × List Event :=
  match c.Validate with
  | .error e => (.error ("invalid client configuration: " ++ e), c, [])
  | .ok _ =>
    match env.login with
    | .error e => (.error ("login request failed: " ++ e), c, [.loginReq])
    | .ok resp =>
      if resp.StatusCode ≠ 200 then
        (.error ("login failed with status code: " ++ toString resp.StatusCode), c, [.loginReq])
      else if resp.Body = "" then
        (.error "received empty token from server", { c with Token := resp.Body }, [.loginReq])
      else
        (.ok (), { c with Token := resp.Body }, [.loginReq])

/-- ensureAuthenticated mirrors the client source lines 100-105: log in
only when no token is held. -/
def Client.ensureAuthenticated (c : Client) (env : Env) :
    Except String Unit × Client × List Event :=
  if c.Token = "" then c.Login env else (.ok (), c, [])

/-- Upload mirrors the client source lines 108-163: reject empty paths,
require the local file to exist, ensure authentication, then drive the
chunked upload to completion. -/
def Client.Upload (c : Client) (env : Env) (localPath remotePath : String) :
    Except String Unit × Client × List Event :=
  if localPath = "" then (.error "local path cannot be empty", c, [])
  else if remotePath = "" then (.error "remote path cannot be empty", c, [])
  else if env.statExists localPath = false then
    (.error ("local file does not exist: " ++ localPath), c, [])
  else
    match c.ensureAuthenticated env with
    | (.error e, c', evs) => (.error ("authentication failed: " ++ e), c', evs)
    | (.ok _, c', evs) =>
      match env.tusUpload localPath remotePath with
      | .error e => (.error e, c', evs ++ [.uploadReq remotePath])
      | .ok _ => (.ok (), c', evs ++ [.uploadReq remotePath])

/-- shareBody mirrors the client source lines 176-183: the request body is
the zero value unless an expiration greater than zero is supplied. -/
def shareBody (expires : Int) (password u : String) : ReqShare :=
  if expires > 0 then { Expires := toString expires, Password := password, Unit := u }
  else { Expires := "", Password := "", Unit := "" }

/-- Share mirrors the client source lines 166-207: reject an empty path,
ensure authentication, post the share body, require status 200 and a
non-empty hash. -/
def Client.Share (c : Client) (env : Env) (remotePath : String)
    (expires : Int) (password u : String) :
    Except String String × Client × List Event :=
  if remotePath = "" then (.error "remote path cannot be empty", c, [])
  else
    match c.ensureAuthenticated env with
    | (.error e, c', evs) => (.error ("authentication failed: " ++ e), c', evs)
    | (.ok _, c', evs) =>
      match env.share remotePath (shareBody expires password u) with
      | .error e =>
        (.error ("share request failed: " ++ e), c',
          evs ++ [.shareReq remotePath (shareBody expires password u)])
      | .ok (statusCode, result) =>
        if statusCode ≠ 200 then
          (.error ("share request failed with status code: " ++ toString statusCode), c',
            evs ++ [.shareReq remotePath (shareBody expires password u)])
        else if result.Hash = "" then
          (.error "received empty hash from server", c',
            evs ++ [.shareReq remotePath (shareBody expires password u)])
        else
          (.ok result.Hash, c', evs ++ [.shareReq remotePath (shareBody expires password u)])

/-- GetResource mirrors the client source lines 210-240: reject an empty
path, ensure authentication, then map 404 to a non-error result whose
NotExist marker is set (all other fields are the Go zero values), map any
other non-200 status to an error, and return the decoded body on 200. -/
def Client.GetResource (c : Client) (env : Env) (remotePath : String) :
    Except String RespResource × Client × List Event :=
  if remotePath = "" then (.error "remote path cannot be empty", c, [])
  else
    match c.ensureAuthenticated env with
    | (.error e, c', evs) => (.error ("authentication failed: " ++ e), c', evs)
    | (.ok _, c', evs) =>
      match env.getResource remotePath with
      | .error e =>
        (.error ("resource request failed: " ++ e), c', evs ++ [.getResourceReq remotePath])
      | .ok (statusCode, result) =>
        if statusCode = 404 then
          (.ok { NotExist := true, Path := "", Name := "", Size := 0, Extension := "",
                 Modified := "", Mode := 0, IsDir := "", IsSymlink := "", typ := "" },
            c', evs ++ [.getResourceReq remotePath])
        else if statusCode ≠ 200 then
          (.error ("resource request failed with status code: " ++ toString statusCode), c',
            evs ++ [.getResourceReq remotePath])
        else
          (.ok result, c', evs ++ [.getResourceReq remotePath])

/-- DeleteResource mirrors the client source lines 243-268: reject an empty
path, ensure authentication, then treat both 200 and 404 as success and
every other status as an error. -/
def Client.DeleteResource (c : Client) (env : Env) (remotePath : String) :
    Except String Unit × Client × List Event :=
  if remotePath = "" then (.error "remote path cannot be empty", c, [])
  else
    match c.ensureAuthenticated env with
    | (.error e, c', evs) => (.error ("authentication failed: " ++ e), c', evs)
    | (.ok _, c', evs) =>
      match env.deleteResource remotePath with
      | .error e =>
        (.error ("delete request failed: " ++ e), c', evs ++ [.deleteReq remotePath])
      | .ok statusCode =>
        if statusCode ≠ 200 ∧ statusCode ≠ 404 then
          (.error ("delete request failed with status code: " ++ toString statusCode), c',
            evs ++ [.deleteReq remotePath])
        else
          (.ok (), c', evs ++ [.deleteReq remotePath])

/-- breakOnScheme splits a character list at the first occurrence of the
separator sequence colon-slash-slash, returning the parts before and after it. -/
def breakOnScheme : List Char → Option (List Char × List Char)
  | [] => none
  | ':' :: '/' :: '/' :: rest => some ([], rest)
  | ch :: rest =>
    match breakOnScheme rest with
    | none => none
    | some (a, b) => some (ch :: a, b)

/-- GoURL models the part of the parsed URL the SDK reads: its path component. -/
structure GoURL where
  Path : String
  deriving DecidableEq, Repr

/-- urlParse models the external net/url parser on the absolute
scheme://host/path URLs this SDK is used with: the path component is
everything from the first slash after the authority, with query and
fragment stripped; a URL whose authority has no trailing slash has an
empty path. Parse errors (control characters in the URL) are not modelled;
on a string without a scheme separator the model returns none, standing in
for the fallback branch of the source. -/
def urlParse (fileURL : String) : Option GoURL :=
  match breakOnScheme fileURL.toList with
  | none => none
  | some (_, rest) =>
    let rest := rest.takeWhile (fun ch => ch ≠ '#')
    let rest := rest.takeWhile (fun ch => ch ≠ '?')
    some { Path := String.mk (rest.dropWhile (fun ch => ch ≠ '/')) }

/-- trimLeading models strings.TrimPrefix: remove the leading occurrence of
pre from s, or return s unchanged. -/
def trimLeading (s pre : String) : String :=
  if s.toList.take pre.toList.length = pre.toList then
    String.mk (s.toList.drop pre.toList.length)
  else s

/-- filepathJoin models path/filepath.Join on the two already-clean
components the SDK joins: empty components are dropped, the rest are
joined with a slash. -/
def filepathJoin (a b : String) : String :=
  if a = "" then b else if b = "" then a else a ++ "/" ++ b

/-- filepathBase models path/filepath.Base on the clean paths the SDK
produces: trailing slashes are dropped and the last path element is
returned ("." for the empty path, "/" for the root). -/
def filepathBase (p : String) : String :=
  if p = "" then "."
  else
    let q := (p.toList.reverse.dropWhile (fun ch => ch = '/')).reverse
    if q = [] then "/"
    else String.mk ((q.reverse.takeWhile (fun ch => ch ≠ '/')).reverse)

/-- filepathDir models path/filepath.Dir on the clean paths the SDK
produces: the portion before the last path element ("." when there is no
slash, "/" when the path is directly under the root). -/
def filepathDir (p : String) : String :=
  let l := p.toList
  let pre := (l.reverse.dropWhile (fun ch => ch ≠ '/')).reverse
  let pre := (pre.reverse.dropWhile (fun ch => ch = '/')).reverse
  if pre = [] then (if l.headD ' ' = '/' then "/" else ".") else String.mk pre

/-- convertorToInt models lancet convertor.ToInt applied to an int64 value:
the conversion always succeeds and returns the value itself. -/
def convertorToInt (n : Int) : Except String Int := .ok n

/-- fileExistsWithSameSize mirrors the download source lines 45-63: true
when the file exists, its size can be read, the expected size converts,
and the two sizes are equal. -/
def fileExistsWithSameSize (env : Env) (localPath : String) (expectedSize : Int) : Bool :=
  if env.fileExists localPath = false then false
  else
    match env.fileSize localPath with
    | .error _ => false
    | .ok localSize =>
      match convertorToInt expectedSize with
      | .error _ => false
      | .ok expectedSizeInt => decide (localSize = expectedSizeInt)

/-- LocalPathForDownload mirrors the download source lines 67-82: join the
temp directory with the URL path stripped of its leading slash, an empty
path component becoming the literal downloaded_file; if the URL does not
parse, fall back to the base name of the URL string. -/
def LocalPathForDownload (tempDir : String) (fileURL : String) : String :=
  match urlParse fileURL with
  | none => filepathJoin tempDir (filepathBase fileURL)
  | some parsedURL =>
    let path := trimLeading parsedURL.Path "/"
    let path := if path = "" then "downloaded_file" else path
    filepathJoin tempDir path

/-- EnsureFolderForFile mirrors the download source lines 85-96: create the
directory containing the file. -/
def EnsureFolderForFile (env : Env) (localPath : String) : Except String Unit :=
  if localPath = "" then .error "local path cannot be empty"
  else
    match env.createDir (filepathDir localPath) with
    | .error e => .error ("failed to create directory " ++ filepathDir localPath ++ ": " ++ e)
    | .ok _ => .ok ()

/-- DownloadToLocal mirrors the download source lines 19-42: reject an
empty URL, derive the local path, ensure its directory, skip the fetch
when the expected size is positive and a file of that size is already
there, otherwise download. -/
def DownloadToLocal (env : Env) (fileURL : String) (fileSize : Int) :
    Except String String × List Event :=
  if fileURL = "" then (.error "file URL cannot be empty", [])
  else
    match EnsureFolderForFile env (LocalPathForDownload env.tempDir fileURL) with
    | .error e => (.error ("failed to create directory for file: " ++ e), [])
    | .ok _ =>
      if (decide (fileSize > 0) && fileExistsWithSameSize env
            (LocalPathForDownload env.tempDir fileURL) fileSize) = true then
        (.ok (LocalPathForDownload env.tempDir fileURL), [])
      else
        match env.downloadFile (LocalPathForDownload env.tempDir fileURL) fileURL with
        | .error e =>
          (.error ("failed to download file from " ++ fileURL ++ ": " ++ e),
            [.downloadReq (LocalPathForDownload env.tempDir fileURL) fileURL])
        | .ok _ =>
          (.ok (LocalPathForDownload env.tempDir fileURL),
            [.downloadReq (LocalPathForDownload env.tempDir fileURL) fileURL])

/-- syncAndUpload embeds util.go lines 94-120, the synchronization policy
of SaveAndShare: when the resource exists, force triggers a delete before
the upload; otherwise a known size that differs from the remote size
triggers a delete before the upload; otherwise the upload is skipped;
when the resource does not exist, upload directly. -/
def syncAndUpload (env : Env) (c : Client) (resourceRet : RespResource)
    (actionParams : ActionParams) (localPath remotePath : String) :
    Except String Unit × Client × List Event :=
  if resourceRet.NotExist = false then
    if actionParams.Force then
      match c.DeleteResource env remotePath with
      | (.error e, c', evs) => (.error ("failed to delete existing resource: " ++ e), c', evs)
      | (.ok _, c', evs) =>
        match c'.Upload env localPath remotePath with
        | (.error e, c2, evs2) => (.error ("failed to upload file: " ++ e), c2, evs ++ evs2)
        | (.ok _, c2, evs2) => (.ok (), c2, evs ++ evs2)
    else if actionParams.FileSize > 0 ∧ resourceRet.Size ≠ actionParams.FileSize then
      match c.DeleteResource env remotePath with
      | (.error e, c', evs) => (.error ("failed to delete mismatched resource: " ++ e), c', evs)
      | (.ok _, c', evs) =>
        match c'.Upload env localPath remotePath with
        | (.error e, c2, evs2) => (.error ("failed to upload file: " ++ e), c2, evs ++ evs2)
        | (.ok _, c2, evs2) => (.ok (), c2, evs ++ evs2)
    else (.ok (), c, [])
  else
    match c.Upload env localPath remotePath with
    | (.error e, c2, evs2) => (.error ("failed to upload file: " ++ e), c2, evs2)
    | (.ok _, c2, evs2) => (.ok (), c2, evs2)

/-- SaveAndShare mirrors util.go lines 52-136: validate the credentials and
inputs, download, compute the remote path, query the remote metadata, run
the synchronization policy (syncAndUpload), create the share, and assemble
the view and download URLs from the client base URL and the share hash. -/
def SaveAndShare (env : Env) (auth : FilebrowserAuth) (externalURL : String)
    (remotePathFn : Option (String → String)) (actionParams : ActionParams) :
    Except String ShareResult × List Event :=
  match auth.Validate with
  | .error e => (.error ("invalid authentication: " ++ e), [])
  | .ok _ =>
    if externalURL = "" then (.error "external URL cannot be empty", [])
    else
      match remotePathFn with
      | none => (.error "remote path function cannot be nil", [])
      | some pathFn =>
        match DownloadToLocal env externalURL actionParams.FileSize with
        | (.error e, evs0) => (.error ("failed to download file: " ++ e), evs0)
        | (.ok localPath, evs0) =>
          if pathFn (filepathBase localPath) = "" then
            (.error "remote path cannot be empty", evs0)
          else
            match Client.GetResource
                { URL := auth.URL, Username := auth.Username,
                  Password := auth.Password, Token := "" } env
                (pathFn (filepathBase localPath)) with
            | (.error e, _, evs1) =>
              (.error ("failed to get resource info: " ++ e), evs0 ++ evs1)
            | (.ok resourceRet, c1, evs1) =>
              match syncAndUpload env c1 resourceRet actionParams localPath
                  (pathFn (filepathBase localPath)) with
              | (.error e, _, evs2) => (.error e, evs0 ++ evs1 ++ evs2)
              | (.ok _, c2, evs2) =>
                match c2.Share env (pathFn (filepathBase localPath))
                    actionParams.shareParams.Expires
                    actionParams.shareParams.Password
                    actionParams.shareParams.Unit with
                | (.error e, _, evs3) =>
                  (.error ("failed to create share: " ++ e), evs0 ++ evs1 ++ evs2 ++ evs3)
                | (.ok hash, c3, evs3) =>
                  (.ok { ViewUrl := c3.URL ++ "/share/" ++ hash,
                         DownloadUrl := c3.URL ++ "/api/public/dl/" ++ hash },
                    evs0 ++ evs1 ++ evs2 ++ evs3)

/-- emptyRes is the Go zero value of RespResource, used as the decoded
body in sample environments. -/
def emptyRes : RespResource :=
  { NotExist := false, Path := "", Name := "", Size := 0, Extension := "",
    Modified := "", Mode := 0, IsDir := "", IsSymlink := "", typ := "" }

/-- envOK is a sample environment in which every exchange succeeds: the
metadata query reports 404 (resource absent), login yields the token tok1,
and the share request yields the hash h1. -/
def envOK : Env where
  tempDir := "/tmp"
  fileExists := fun _ => false
  fileSize := fun _ => .ok 0
  createDir := fun _ => .ok ()
  downloadFile := fun _ _ => .ok ()
  statExists := fun _ => true
  login := .ok { StatusCode := 200, Body := "tok1" }
  getResource := fun _ => .ok (404, emptyRes)
  deleteResource := fun _ => .ok 200
  tusUpload := fun _ _ => .ok ()
  share := fun _ _ => .ok (200, { Hash := "h1", Path := "/a.pdf" })

/-- authOK is a sample set of non-empty credentials. -/
def authOK : FilebrowserAuth := { URL := "http://fb", Username := "u", Password := "p" }

/-- clientTok is a sample client already holding a token. -/
def clientTok : Client := { URL := "http://fb", Username := "u", Password := "p", Token := "tok1" }

/-- paramsOK is a sample parameter bundle with unknown size, no force and
no expiration. -/
def paramsOK : ActionParams :=
  { shareParams := { Expires := 0, Password := "", Unit := "" }, FileSize := 0, Force := false }

/-- resExists is a sample metadata result for a resource that exists with
size 5. -/
def resExists : RespResource :=
  { NotExist := false, Path := "/a.pdf", Name := "a.pdf", Size := 5, Extension := ".pdf",
    Modified := "", Mode := 0, IsDir := "false", IsSymlink := "false", typ := "blob" }

/-- paramsForce is a sample parameter bundle with the force flag set and a
size equal to the remote one, exercising the tie-break rule. -/
def paramsForce : ActionParams :=
  { shareParams := { Expires := 0, Password := "", Unit := "" }, FileSize := 5, Force := true }

/-- ensureAuthenticated is a no-op when a token is already held. -/
theorem ensureAuthenticated_noop (c : Client) (env : Env) (htok : c.Token ≠ "") :
    c.ensureAuthenticated env = (.ok (), c, []) := by
  unfold Client.ensureAuthenticated
  rw [if_neg htok]

/-- Login leaves a non-empty token behind whenever it succeeds. -/
theorem login_token_nonempty (c c' : Client) (env : Env) (r : Unit) (evs : List Event)
    (h : c.Login env = (.ok r, c', evs)) : c'.Token ≠ "" := by
  unfold Client.Login at h
  split at h
  · simp at h
  · split at h
    · simp at h
    · split at h
      · simp at h
      · split at h
        · simp at h
        · rename_i resp hst hbody
          simp only [Prod.mk.injEq] at h
          rw [← h.2.1]
          simpa using hbody

/-- DeleteResource with a held token and a 200 response succeeds, leaves
the client unchanged and performs exactly the delete request. -/
theorem deleteResource_ok (c : Client) (env : Env) (rp : String)
    (hrp : rp ≠ "") (htok : c.Token ≠ "") (hdel : env.deleteResource rp = .ok 200) :
    c.DeleteResource env rp = (.ok (), c, [.deleteReq rp]) := by
  unfold Client.DeleteResource
  rw [if_neg hrp, ensureAuthenticated_noop c env htok, hdel]
  simp

/-- Upload with a held token, an existing local file and a successful
transfer succeeds, leaves the client unchanged and performs exactly the
upload exchange. -/
theorem upload_ok (c : Client) (env : Env) (lp rp : String)
    (hlp : lp ≠ "") (hrp : rp ≠ "") (hstat : env.statExists lp = true)
    (htok : c.Token ≠ "") (hup : env.tusUpload lp rp = .ok ()) :
    c.Upload env lp rp = (.ok (), c, [.uploadReq rp]) := by
  unfold Client.Upload
  rw [if_neg hlp, if_neg hrp, hstat, ensureAuthenticated_noop c env htok, hup]
  simp

/-- Share with a held token always performs exactly one share request,
whose body is shareBody, whatever the response is. -/
theorem share_trace (c : Client) (env : Env) (rp : String) (e : Int) (pw u : String)
    (hrp : rp ≠ "") (htok : c.Token ≠ "") :
    (c.Share env rp e pw u).2.2 = [.shareReq rp (shareBody e pw u)] := by
  unfold Client.Share
  rw [if_neg hrp, ensureAuthenticated_noop c env htok]
  rcases h : env.share rp (shareBody e pw u) with er | st_res
  · simp [h]
  · rcases st_res with ⟨st, result⟩
    by_cases h200 : st ≠ 200
    · simp [h, h200]
    · by_cases hh : result.Hash = ""
      · simp [h, h200, hh]
      · simp [h, h200, hh]

/-- Upload with a held token performs no login exchange and returns the
client unchanged. -/
theorem upload_no_login (c : Client) (env : Env) (lp rp : String) (htok : c.Token ≠ "") :
    Event.loginReq ∉ (c.Upload env lp rp).2.2 ∧ (c.Upload env lp rp).2.1 = c := by
  unfold Client.Upload
  rw [ensureAuthenticated_noop c env htok]
  split
  · simp
  · split
    · simp
    · split
      · simp
      · rcases h : env.tusUpload lp rp with e | u <;> simp [h]

/-- Share with a held token performs no login exchange and returns the
client unchanged. -/
theorem share_no_login (c : Client) (env : Env) (rp : String) (e : Int) (pw u : String)
    (htok : c.Token ≠ "") :
    Event.loginReq ∉ (c.Share env rp e pw u).2.2 ∧ (c.Share env rp e pw u).2.1 = c := by
  unfold Client.Share
  rw [ensureAuthenticated_noop c env htok]
  split
  · simp
  · rcases h : env.share rp (shareBody e pw u) with er | st_res
    · simp [h]
    · rcases st_res with ⟨st, result⟩
      by_cases h200 : st ≠ 200
      · simp [h, h200]
      · by_cases hh : result.Hash = ""
        · simp [h, h200, hh]
        · simp [h, h200, hh]

/-- GetResource with a held token performs no login exchange and returns
the client unchanged. -/
theorem getResource_no_login (c : Client) (env : Env) (rp : String) (htok : c.Token ≠ "") :
    Event.loginReq ∉ (c.GetResource env rp).2.2 ∧ (c.GetResource env rp).2.1 = c := by
  unfold Client.GetResource
  rw [ensureAuthenticated_noop c env htok]
  split
  · simp
  · rcases h : env.getResource rp with er | st_res
    · simp [h]
    · rcases st_res with ⟨st, result⟩
      by_cases h404 : st = 404
      · simp [h, h404]
      · by_cases h200 : st ≠ 200
        · simp [h, h404, h200]
        · simp [h, h404, h200]

/-- DeleteResource with a held token performs no login exchange and
returns the client unchanged. -/
theorem deleteResource_no_login (c : Client) (env : Env) (rp : String) (htok : c.Token ≠ "") :
    Event.loginReq ∉ (c.DeleteResource env rp).2.2 ∧ (c.DeleteResource env rp).2.1 = c := by
  unfold Client.DeleteResource
  rw [ensureAuthenticated_noop c env htok]
  split
  · simp
  · rcases h : env.deleteResource rp with er | st
    · simp [h]
    · by_cases hs : st ≠ 200 ∧ st ≠ 404
      · simp [h, hs]
      · simp [h, hs]

/-- Login never changes the URL field of the client. -/
theorem login_URL (c : Client) (env : Env) : ((c.Login env).2.1).URL = c.URL := by
  unfold Client.Login
  split
  · rfl
  · split
    · rfl
    · split
      · rfl
      · split <;> rfl

/-- ensureAuthenticated never changes the URL field of the client. -/
theorem ensureAuthenticated_URL (c : Client) (env : Env) :
    ((c.ensureAuthenticated env).2.1).URL = c.URL := by
  unfold Client.ensureAuthenticated
  split
  · exact login_URL c env
  · rfl

/-- Upload never changes the URL field of the client. -/
theorem upload_URL (c : Client) (env : Env) (lp rp : String) :
    ((c.Upload env lp rp).2.1).URL = c.URL := by
  unfold Client.Upload
  split
  · rfl
  · split
    · rfl
    · split
      · rfl
      · rcases he : c.ensureAuthenticated env with ⟨res, c', evs⟩
        have hURL : c'.URL = c.URL := by
          have h := ensureAuthenticated_URL c env
          rw [he] at h
          exact h
        rcases res with e | u
        · simpa using hURL
        · rcases h : env.tusUpload lp rp with e | u2 <;> simpa [h] using hURL

/-- Share never changes the URL field of the client. -/
theorem share_URL (c : Client) (env : Env) (rp : String) (e : Int) (pw u : String) :
    ((c.Share env rp e pw u).2.1).URL = c.URL := by
  unfold Client.Share
  split
  · rfl
  · rcases he : c.ensureAuthenticated env with ⟨res, c', evs⟩
    have hURL : c'.URL = c.URL := by
      have h := ensureAuthenticated_URL c env
      rw [he] at h
      exact h
    rcases res with er | u2
    · simpa using hURL
    · rcases h : env.share rp (shareBody e pw u) with er | st_res
      · simpa [h] using hURL
      · rcases st_res with ⟨st, result⟩
        by_cases h200 : st ≠ 200
        · simpa [h, h200] using hURL
        · by_cases hh : result.Hash = ""
          · simpa [h, h200, hh] using hURL
          · simpa [h, h200, hh] using hURL

/-- GetResource never changes the URL field of the client. -/
theorem getResource_URL (c : Client) (env : Env) (rp : String) :
    ((c.GetResource env rp).2.1).URL = c.URL := by
  unfold Client.GetResource
  split
  · rfl
  · rcases he : c.ensureAuthenticated env with ⟨res, c', evs⟩
    have hURL : c'.URL = c.URL := by
      have h := ensureAuthenticated_URL c env
      rw [he] at h
      exact h
    rcases res with er | u2
    · simpa using hURL
    · rcases h : env.getResource rp with er | st_res
      · simpa [h] using hURL
      · rcases st_res with ⟨st, result⟩
        by_cases h404 : st = 404
        · simpa [h, h404] using hURL
        · by_cases h200 : st ≠ 200
          · simpa [h, h404, h200] using hURL
          · simpa [h, h404, h200] using hURL

/-- DeleteResource never changes the URL field of the client. -/
theorem deleteResource_URL (c : Client) (env : Env) (rp : String) :
    ((c.DeleteResource env rp).2.1).URL = c.URL := by
  unfold Client.DeleteResource
  split
  · rfl
  · rcases he : c.ensureAuthenticated env with ⟨res, c', evs⟩
    have hURL : c'.URL = c.URL := by
      have h := ensureAuthenticated_URL c env
      rw [he] at h
      exact h
    rcases res with er | u2
    · simpa using hURL
    · rcases h : env.deleteResource rp with er | st
      · simpa [h] using hURL
      · by_cases hs : st ≠ 200 ∧ st ≠ 404
        · simpa [h, hs] using hURL
        · simpa [h, hs] using hURL

/-- syncAndUpload never changes the URL field of the client. -/
theorem syncAndUpload_URL (env : Env) (c : Client) (res : RespResource)
    (params : ActionParams) (lp rp : String) :
    ((syncAndUpload env c res params lp rp).2.1).URL = c.URL := by
  unfold syncAndUpload
  split
  · split
    · rcases hd : c.DeleteResource env rp with ⟨dres, c', evs⟩
      have h1 : c'.URL = c.URL := by
        have h := deleteResource_URL c env rp
        rw [hd] at h
        exact h
      rcases dres with e | u
      · simpa using h1
      · rcases hu : c'.Upload env lp rp with ⟨ures, c2, evs2⟩
        have h2 : c2.URL = c'.URL := by
          have h := upload_URL c' env lp rp
          rw [hu] at h
          exact h
        rcases ures with e | u2 <;> simp [hu, h1, h2]
    · split
      · rcases hd : c.DeleteResource env rp with ⟨dres, c', evs⟩
        have h1 : c'.URL = c.URL := by
          have h := deleteResource_URL c env rp
          rw [hd] at h
          exact h
        rcases dres with e | u
        · simpa using h1
        · rcases hu : c'.Upload env lp rp with ⟨ures, c2, evs2⟩
          have h2 : c2.URL = c'.URL := by
            have h := upload_URL c' env lp rp
            rw [hu] at h
            exact h
          rcases ures with e | u2 <;> simp [hu, h1, h2]
      · rfl
  · rcases hu : c.Upload env lp rp with ⟨ures, c2, evs2⟩
    have h2 : c2.URL = c.URL := by
      have h := upload_URL c env lp rp
      rw [hu] at h
      exact h
    rcases ures with e | u2 <;> simpa [hu] using h2

/-- Share succeeds only when the share exchange answered with status 200
and a body whose hash is the non-empty string Share returns. -/
theorem share_ok_inv (c : Client) (env : Env) (rp : String) (e : Int) (pw u h : String)
    (c' : Client) (evs : List Event)
    (hs : c.Share env rp e pw u = (.ok h, c', evs)) :
    h ≠ "" ∧ ∃ rs, env.share rp (shareBody e pw u) = .ok (200, rs) ∧ rs.Hash = h := by
  unfold Client.Share at hs
  split at hs
  · simp at hs
  · split at hs
    · simp at hs
    · rename_i u2 c2 evs2 hens
      split at hs
      · simp at hs
      · rename_i st result hshare
        split at hs
        · simp at hs
        · rename_i h200
          split at hs
          · simp at hs
          · rename_i hhash
            simp only [Prod.mk.injEq, Except.ok.injEq] at hs
            have hst : st = 200 := not_not.mp h200
            refine ⟨?_, ⟨result, ?_, hs.1⟩⟩
            · rw [← hs.1]
              exact hhash
            · rw [← hst]
              exact hshare

/-- String append is associative. -/
theorem strAppendAssoc (a b c : String) : a ++ b ++ c = a ++ (b ++ c) := by
  apply String.ext
  simp [String.data_append]

/-- C1: the synchronization policy of SaveAndShare selects exactly one
action as a function of (resource exists, force, expected size, remote
size): absent resource means upload; present and force means delete then
upload whatever the sizes are, so force wins even when sizes match;
present, not forced, and unknown (non-positive) or matching expected size
means skip; present, not forced, known and mismatched size means delete
then upload. Stated over the event trace of syncAndUpload, the embedding
of util.go lines 94-120, in an environment whose delete and upload
exchanges succeed. -/
theorem syncAndUpload_policy (env : Env) (c : Client) (res : RespResource)
    (params : ActionParams) (lp rp : String)
    (htok : c.Token ≠ "") (hlp : lp ≠ "") (hrp : rp ≠ "")
    (hstat : env.statExists lp = true)
    (hdel : env.deleteResource rp = .ok 200)
    (hup : env.tusUpload lp rp = .ok ()) :
    (res.NotExist = true →
      syncAndUpload env c res params lp rp = (.ok (), c, [.uploadReq rp]))
  ∧ (res.NotExist = false → params.Force = true →
      syncAndUpload env c res params lp rp = (.ok (), c, [.deleteReq rp, .uploadReq rp]))
  ∧ (res.NotExist = false → params.Force = false → params.FileSize ≤ 0 →
      syncAndUpload env c res params lp rp = (.ok (), c, []))
  ∧ (res.NotExist = false → params.Force = false → 0 < params.FileSize →
      res.Size = params.FileSize →
      syncAndUpload env c res params lp rp = (.ok (), c, []))
  ∧ (res.NotExist = false → params.Force = false → 0 < params.FileSize →
      res.Size ≠ params.FileSize →
      syncAndUpload env c res params lp rp = (.ok (), c, [.deleteReq rp, .uploadReq rp])) := by
  have hdok := deleteResource_ok c env rp hrp htok hdel
  have huok := upload_ok c env lp rp hlp hrp hstat htok hup
  refine ⟨?_, ?_, ?_, ?_, ?_⟩
  · intro hne
    simp [syncAndUpload, hne, huok]
  · intro hne hforce
    simp [syncAndUpload, hne, hforce, hdok, huok]
  · intro hne hforce hsz
    have hcond : ¬(params.FileSize > 0 ∧ res.Size ≠ params.FileSize) := by
      rintro ⟨h1, h2⟩
      omega
    simp [syncAndUpload, hne, hforce, hcond]
  · intro hne hforce hsz hmatch
    have hcond : ¬(params.FileSize > 0 ∧ res.Size ≠ params.FileSize) := by
      rintro ⟨h1, h2⟩
      exact h2 hmatch
    simp [syncAndUpload, hne, hforce, hcond]
  · intro hne hforce hsz hmk
    have hcond : params.FileSize > 0 ∧ res.Size ≠ params.FileSize := ⟨hsz, hmk⟩
    simp [syncAndUpload, hne, hforce, hcond, hdok, huok]

/-- Witness for syncAndUpload_policy: in the sample environment, with a
resource that exists with size 5 and the force flag set while the expected
size also equals 5, the policy still deletes and re-uploads. -/
theorem syncAndUpload_policy_witness :
    syncAndUpload envOK clientTok resExists paramsForce "/tmp/a.pdf" "a.pdf" =
      (.ok (), clientTok, [.deleteReq "a.pdf", .uploadReq "a.pdf"]) :=
  (syncAndUpload_policy envOK clientTok resExists paramsForce "/tmp/a.pdf" "a.pdf"
    (by decide) (by decide) (by decide) rfl rfl rfl).2.1 rfl rfl

/-- C2: for every non-positive expected size the local cache check of
DownloadToLocal (the size guard of line 30 together with
fileExistsWithSameSize) is false whatever the file state is, so the fetch
is always performed: the trace of DownloadToLocal contains the download
request. -/
theorem localCacheCheck_unknown_size_forces_fetch (env : Env) (fileURL : String)
    (fileSize : Int) (hsz : fileSize ≤ 0) (hurl : fileURL ≠ "")
    (hdir : EnsureFolderForFile env (LocalPathForDownload env.tempDir fileURL) = .ok ()) :
    ((decide (fileSize > 0) &&
        fileExistsWithSameSize env (LocalPathForDownload env.tempDir fileURL) fileSize) = false)
  ∧ (DownloadToLocal env fileURL fileSize).2 =
      [Event.downloadReq (LocalPathForDownload env.tempDir fileURL) fileURL] := by
  have hguard : decide (fileSize > 0) = false := by
    simp only [decide_eq_false_iff_not]
    omega
  constructor
  · rw [hguard]
    simp
  · unfold DownloadToLocal
    rw [if_neg hurl, hdir, hguard]
    rcases h : env.downloadFile (LocalPathForDownload env.tempDir fileURL) fileURL with e | u <;>
      simp [h]

/-- Witness for localCacheCheck_unknown_size_forces_fetch at expected size
0 in an environment whose directory creation succeeds. -/
theorem localCacheCheck_unknown_size_forces_fetch_witness :
    ((decide ((0 : Int) > 0) &&
        fileExistsWithSameSize envOK (LocalPathForDownload envOK.tempDir "https://x/a.pdf") 0) = false)
  ∧ (DownloadToLocal envOK "https://x/a.pdf" 0).2 =
      [Event.downloadReq (LocalPathForDownload envOK.tempDir "https://x/a.pdf") "https://x/a.pdf"] :=
  localCacheCheck_unknown_size_forces_fetch envOK "https://x/a.pdf" 0
    (by decide) (by decide) rfl

/-- C3: for every call to Share, the outgoing request body is the zero
value (no expiration, unit or password) when the expiration is not
positive, and carries exactly the expiration, password and unit when the
expiration is positive; the trace holds exactly one share request. -/
theorem share_body_expiration (env : Env) (c : Client) (rp : String) (e : Int)
    (pw u : String) (hrp : rp ≠ "") (htok : c.Token ≠ "") :
    (e ≤ 0 → (c.Share env rp e pw u).2.2 =
      [.shareReq rp { Expires := "", Password := "", Unit := "" }])
  ∧ (0 < e → (c.Share env rp e pw u).2.2 =
      [.shareReq rp { Expires := toString e, Password := pw, Unit := u }]) := by
  rw [share_trace c env rp e pw u hrp htok]
  constructor
  · intro h
    rw [shareBody, if_neg (by omega)]
  · intro h
    rw [shareBody, if_pos h]

/-- Witness for share_body_expiration at expiration 0: the request body is
the zero value. -/
theorem share_body_expiration_witness :
    (Client.Share clientTok envOK "a.pdf" 0 "" "").2.2 =
      [.shareReq "a.pdf" { Expires := "", Password := "", Unit := "" }] :=
  (share_body_expiration envOK clientTok "a.pdf" 0 "" "" (by decide) (by decide)).1 (by decide)

/-- C4: GetResource maps a 404 answer to a non-error result whose NotExist
marker is true (every other field the zero value), maps every other
non-200 status to an error, and on 200 returns the decoded metadata with
NotExist false; moreover a non-error result carries the NotExist marker
exactly when the status was 404. The hypothesis hne is the remote
service's contract: its resource JSON never carries the not_exist field
(the marker exists only on the SDK side), so the decoded body always
leaves that field at its zero value false. -/
theorem getResource_notFound_marker (env : Env) (c : Client) (rp : String)
    (st : Int) (res : RespResource) (hrp : rp ≠ "") (htok : c.Token ≠ "")
    (hres : env.getResource rp = .ok (st, res))
    (hne : res.NotExist = false) :
    (st = 404 → (c.GetResource env rp).1 =
      .ok { NotExist := true, Path := "", Name := "", Size := 0, Extension := "",
            Modified := "", Mode := 0, IsDir := "", IsSymlink := "", typ := "" })
  ∧ (st ≠ 404 → st ≠ 200 → (c.GetResource env rp).1 =
      .error ("resource request failed with status code: " ++ toString st))
  ∧ (st = 200 → (c.GetResource env rp).1 = .ok res ∧ res.NotExist = false)
  ∧ (∀ out : RespResource, (c.GetResource env rp).1 = .ok out →
      (out.NotExist = true ↔ st = 404)) := by
  refine ⟨?_, ?_, ?_, ?_⟩
  · intro h404
    simp [Client.GetResource, hrp, ensureAuthenticated_noop c env htok, hres, h404]
  · intro h404 h200
    simp [Client.GetResource, hrp, ensureAuthenticated_noop c env htok, hres, h404, h200]
  · intro h200
    have h404 : st ≠ 404 := by omega
    exact ⟨by simp [Client.GetResource, hrp, ensureAuthenticated_noop c env htok,
      hres, h404, h200], hne⟩
  · intro out hout
    by_cases h404 : st = 404
    · simp [Client.GetResource, hrp, ensureAuthenticated_noop c env htok, hres, h404] at hout
      rw [← hout]
      simp [h404]
    · by_cases h200 : st = 200
      · simp [Client.GetResource, hrp, ensureAuthenticated_noop c env htok,
          hres, h404, h200] at hout
        rw [← hout]
        simp [hne, h404]
      · simp [Client.GetResource, hrp, ensureAuthenticated_noop c env htok,
          hres, h404, h200] at hout

/-- Witness for getResource_notFound_marker: in the sample environment the
metadata query answers 404 and the result carries the NotExist marker. -/
theorem getResource_notFound_marker_witness :
    (Client.GetResource clientTok envOK "a.pdf").1 =
      .ok { NotExist := true, Path := "", Name := "", Size := 0, Extension := "",
            Modified := "", Mode := 0, IsDir := "", IsSymlink := "", typ := "" } :=
  (getResource_notFound_marker envOK clientTok "a.pdf" 404 emptyRes
    (by decide) (by decide) rfl rfl).1 rfl

/-- C5: LocalPathForDownload joins the temp directory with the URL path
component stripped of its leading slash; an empty path component maps to
the literal downloaded_file. -/
theorem localPathForDownload_derivation (tmp : String) (htmp : tmp ≠ "") :
    LocalPathForDownload tmp "https://x/files/a.pdf" = tmp ++ "/files/a.pdf"
  ∧ LocalPathForDownload tmp "https://x/a.pdf" = tmp ++ "/a.pdf"
  ∧ LocalPathForDownload tmp "https://x/" = tmp ++ "/downloaded_file" := by
  have h1 : urlParse "https://x/files/a.pdf" = some { Path := "/files/a.pdf" } := by decide
  have h2 : urlParse "https://x/a.pdf" = some { Path := "/a.pdf" } := by decide
  have h3 : urlParse "https://x/" = some { Path := "/" } := by decide
  have t1 : trimLeading "/files/a.pdf" "/" = "files/a.pdf" := by decide
  have t2 : trimLeading "/a.pdf" "/" = "a.pdf" := by decide
  have t3 : trimLeading "/" "/" = "" := by decide
  have a1 : ("/" ++ "files/a.pdf" : String) = "/files/a.pdf" := by decide
  have a2 : ("/" ++ "a.pdf" : String) = "/a.pdf" := by decide
  have a3 : ("/" ++ "downloaded_file" : String) = "/downloaded_file" := by decide
  refine ⟨?_, ?_, ?_⟩
  · rw [LocalPathForDownload, h1]
    simp only [t1]
    rw [if_neg (by decide), filepathJoin, if_neg htmp, if_neg (by decide), strAppendAssoc, a1]
  · rw [LocalPathForDownload, h2]
    simp only [t2]
    rw [if_neg (by decide), filepathJoin, if_neg htmp, if_neg (by decide), strAppendAssoc, a2]
  · rw [LocalPathForDownload, h3]
    simp only [t3, if_true]
    rw [filepathJoin, if_neg htmp, if_neg (by decide), strAppendAssoc, a3]

/-- Witness for localPathForDownload_derivation with the temp directory of
the sample environment. -/
theorem localPathForDownload_derivation_witness :
    LocalPathForDownload "/tmp" "https://x/files/a.pdf" = "/tmp" ++ "/files/a.pdf"
  ∧ LocalPathForDownload "/tmp" "https://x/a.pdf" = "/tmp" ++ "/a.pdf"
  ∧ LocalPathForDownload "/tmp" "https://x/" = "/tmp" ++ "/downloaded_file" :=
  localPathForDownload_derivation "/tmp" (by decide)

/-- C6: DeleteResource treats both 200 and 404 answers as success (the
idempotent delete), and every other status as an error. -/
theorem deleteResource_idempotent (env : Env) (c : Client) (rp : String) (st : Int)
    (hrp : rp ≠ "") (htok : c.Token ≠ "")
    (hdel : env.deleteResource rp = .ok st) :
    (st = 200 → c.DeleteResource env rp = (.ok (), c, [.deleteReq rp]))
  ∧ (st = 404 → c.DeleteResource env rp = (.ok (), c, [.deleteReq rp]))
  ∧ (st ≠ 200 → st ≠ 404 → (c.DeleteResource env rp).1 =
      .error ("delete request failed with status code: " ++ toString st)) := by
  refine ⟨?_, ?_, ?_⟩
  · intro h200
    simp [Client.DeleteResource, hrp, ensureAuthenticated_noop c env htok, hdel, h200]
  · intro h404
    simp [Client.DeleteResource, hrp, ensureAuthenticated_noop c env htok, hdel, h404]
  · intro h200 h404
    simp [Client.DeleteResource, hrp, ensureAuthenticated_noop c env htok, hdel, h200, h404]

/-- Witness for deleteResource_idempotent: the sample environment answers
200 and the delete succeeds with exactly one delete request. -/
theorem deleteResource_idempotent_witness :
    Client.DeleteResource clientTok envOK "a.pdf" = (.ok (), clientTok, [.deleteReq "a.pdf"]) :=
  (deleteResource_idempotent envOK clientTok "a.pdf" 200 (by decide) (by decide) rfl).1 rfl

/-- C7: credential validation succeeds exactly when all of URL, username
and password are non-empty; equivalently it returns an error exactly when
at least one of them is empty, whichever field it is. -/
theorem auth_validate_nonempty (auth : FilebrowserAuth) :
    (auth.Validate = .ok () ↔
      (auth.URL ≠ "" ∧ auth.Username ≠ "" ∧ auth.Password ≠ ""))
  ∧ ((∃ e, auth.Validate = .error e) ↔
      (auth.URL = "" ∨ auth.Username = "" ∨ auth.Password = "")) := by
  unfold FilebrowserAuth.Validate
  split_ifs with h1 h2 h3 <;> simp_all

/-- C10: each remote operation called with an empty remote path fails
immediately: no login, no request, and the client returned unchanged.
For Upload the empty-remote-path check is reached once the local path is
non-empty; even the local stat is not consulted. -/
theorem empty_remote_path_rejected (env : Env) (c : Client) (lp : String)
    (e : Int) (pw u : String) (hlp : lp ≠ "") :
    c.Upload env lp "" = (.error "remote path cannot be empty", c, [])
  ∧ c.Share env "" e pw u = (.error "remote path cannot be empty", c, [])
  ∧ c.GetResource env "" = (.error "remote path cannot be empty", c, [])
  ∧ c.DeleteResource env "" = (.error "remote path cannot be empty", c, []) := by
  refine ⟨?_, ?_, ?_, ?_⟩
  · rw [Client.Upload, if_neg hlp, if_pos rfl]
  · rw [Client.Share, if_pos rfl]
  · rw [Client.GetResource, if_pos rfl]
  · rw [Client.DeleteResource, if_pos rfl]

/-- Witness for empty_remote_path_rejected at a concrete client and local
path. -/
theorem empty_remote_path_rejected_witness :
    Client.Upload clientTok envOK "/tmp/a.pdf" "" =
      (.error "remote path cannot be empty", clientTok, [])
  ∧ Client.Share clientTok envOK "" 0 "" "" =
      (.error "remote path cannot be empty", clientTok, [])
  ∧ Client.GetResource clientTok envOK "" =
      (.error "remote path cannot be empty", clientTok, [])
  ∧ Client.DeleteResource clientTok envOK "" =
      (.error "remote path cannot be empty", clientTok, []) :=
  empty_remote_path_rejected envOK clientTok "/tmp/a.pdf" 0 "" "" (by decide)

/-- C9: every authenticated operation runs the ensure-authenticated guard:
the guard logs in exactly when no token is held; a successful login leaves
a non-empty token; with a token held, none of the four operations performs
a login exchange and each returns the client unchanged, so no further
login ever happens; and with no token held, a failing login aborts each
operation before its own exchange, propagating exactly the login outcome. -/
theorem lazy_authentication (env : Env) (c : Client) (lp rp : String)
    (e : Int) (pw u : String)
    (hlp : lp ≠ "") (hrp : rp ≠ "") (hstat : env.statExists lp = true) :
    (c.Token = "" → c.ensureAuthenticated env = c.Login env)
  ∧ (c.Token ≠ "" → c.ensureAuthenticated env = (.ok (), c, []))
  ∧ (∀ (r : Unit) (c' : Client) (evs : List Event),
      c.Login env = (.ok r, c', evs) → c'.Token ≠ "")
  ∧ (c.Token ≠ "" →
      (Event.loginReq ∉ (c.Upload env lp rp).2.2 ∧ (c.Upload env lp rp).2.1 = c)
    ∧ (Event.loginReq ∉ (c.Share env rp e pw u).2.2 ∧ (c.Share env rp e pw u).2.1 = c)
    ∧ (Event.loginReq ∉ (c.GetResource env rp).2.2 ∧ (c.GetResource env rp).2.1 = c)
    ∧ (Event.loginReq ∉ (c.DeleteResource env rp).2.2 ∧ (c.DeleteResource env rp).2.1 = c))
  ∧ (c.Token = "" → ∀ (em : String) (cL : Client) (evL : List Event),
      c.Login env = (.error em, cL, evL) →
      c.Upload env lp rp = (.error ("authentication failed: " ++ em), cL, evL)
    ∧ c.Share env rp e pw u = (.error ("authentication failed: " ++ em), cL, evL)
    ∧ c.GetResource env rp = (.error ("authentication failed: " ++ em), cL, evL)
    ∧ c.DeleteResource env rp = (.error ("authentication failed: " ++ em), cL, evL)) := by
  refine ⟨?_, ?_, ?_, ?_, ?_⟩
  · intro htok
    rw [Client.ensureAuthenticated, if_pos htok]
  · intro htok
    exact ensureAuthenticated_noop c env htok
  · intro r c' evs h
    exact login_token_nonempty c c' env r evs h
  · intro htok
    exact ⟨upload_no_login c env lp rp htok, share_no_login c env rp e pw u htok,
      getResource_no_login c env rp htok, deleteResource_no_login c env rp htok⟩
  · intro htok em cL evL hlog
    have hens : c.ensureAuthenticated env = (.error em, cL, evL) := by
      rw [Client.ensureAuthenticated, if_pos htok, hlog]
    refine ⟨?_, ?_, ?_, ?_⟩
    · rw [Client.Upload, if_neg hlp, if_neg hrp, hstat]
      simp [hens]
    · rw [Client.Share, if_neg hrp, hens]
    · rw [Client.GetResource, if_neg hrp, hens]
    · rw [Client.DeleteResource, if_neg hrp, hens]

/-- Witness for lazy_authentication: with a held token the upload trace of
the sample run has no login exchange. -/
theorem lazy_authentication_witness :
    Event.loginReq ∉ (Client.Upload clientTok envOK "/tmp/a.pdf" "a.pdf").2.2
  ∧ (Client.Upload clientTok envOK "/tmp/a.pdf" "a.pdf").2.1 = clientTok :=
  ((lazy_authentication envOK clientTok "/tmp/a.pdf" "a.pdf" 0 "" ""
    (by decide) (by decide) rfl).2.2.2.1 (by decide)).1

/-- C8: whenever SaveAndShare succeeds, its two result URLs are assembled
from the credential base URL and the hash the share exchange returned:
view URL base/share/hash and download URL base/api/public/dl/hash. -/
theorem saveAndShare_result_urls (env : Env) (auth : FilebrowserAuth)
    (externalURL : String) (fn : Option (String → String)) (params : ActionParams)
    (r : ShareResult) (evs : List Event)
    (h : SaveAndShare env auth externalURL fn params = (.ok r, evs)) :
    ∃ remotePath body rs,
      env.share remotePath body = .ok (200, rs) ∧ rs.Hash ≠ "" ∧
      r.ViewUrl = auth.URL ++ "/share/" ++ rs.Hash ∧
      r.DownloadUrl = auth.URL ++ "/api/public/dl/" ++ rs.Hash := by
  unfold SaveAndShare at h
  split at h
  · simp at h
  · split at h
    · simp at h
    · split at h
      · simp at h
      · rename_i pathFn
        split at h
        · simp at h
        · rename_i lp evs0 hdl
          split at h
          · simp at h
          · rename_i hrp
            split at h
            · simp at h
            · rename_i resourceRet c1 evs1 hgr
              split at h
              · simp at h
              · rename_i u0 c2 evs2 hsync
                split at h
                · simp at h
                · rename_i hash c3 evs3 hshare
                  simp only [Prod.mk.injEq, Except.ok.injEq] at h
                  obtain ⟨hr, hevs⟩ := h
                  obtain ⟨hhash, rs, hsh, hrs⟩ :=
                    share_ok_inv c2 env (pathFn (filepathBase lp))
                      params.shareParams.Expires params.shareParams.Password
                      params.shareParams.Unit hash c3 evs3 hshare
                  have hc1 : c1.URL = auth.URL := by
                    have hx := getResource_URL
                      { URL := auth.URL, Username := auth.Username,
                        Password := auth.Password, Token := "" }
                      env (pathFn (filepathBase lp))
                    rw [hgr] at hx
                    exact hx
                  have hc2 : c2.URL = auth.URL := by
                    have hx := syncAndUpload_URL env c1 resourceRet params lp
                      (pathFn (filepathBase lp))
                    rw [hsync] at hx
                    rw [hx, hc1]
                  have hc3 : c3.URL = auth.URL := by
                    have hx := share_URL c2 env (pathFn (filepathBase lp))
                      params.shareParams.Expires params.shareParams.Password
                      params.shareParams.Unit
                    rw [hshare] at hx
                    rw [hx, hc2]
                  refine ⟨pathFn (filepathBase lp),
                    shareBody params.shareParams.Expires params.shareParams.Password
                      params.shareParams.Unit, rs, hsh, ?_, ?_, ?_⟩
                  · rw [hrs]
                    exact hhash
                  · rw [← hr]
                    simp [hc3, hrs]
                  · rw [← hr]
                    simp [hc3, hrs]

/-- Witness for saveAndShare_result_urls: the sample end-to-end run with an
absent remote resource succeeds and its URLs carry the returned hash h1. -/
theorem saveAndShare_result_urls_witness :
    ∃ remotePath body rs,
      envOK.share remotePath body = .ok (200, rs) ∧ rs.Hash ≠ "" ∧
      ({ ViewUrl := "http://fb/share/h1",
         DownloadUrl := "http://fb/api/public/dl/h1" } : ShareResult).ViewUrl =
        authOK.URL ++ "/share/" ++ rs.Hash ∧
      ({ ViewUrl := "http://fb/share/h1",
         DownloadUrl := "http://fb/api/public/dl/h1" } : ShareResult).DownloadUrl =
        authOK.URL ++ "/api/public/dl/" ++ rs.Hash :=
  saveAndShare_result_urls envOK authOK "https://x/a.pdf" (some (fun n => n)) paramsOK
    { ViewUrl := "http://fb/share/h1", DownloadUrl := "http://fb/api/public/dl/h1" }
    [.downloadReq "/tmp/a.pdf" "https://x/a.pdf", .loginReq, .getResourceReq "a.pdf",
     .uploadReq "a.pdf", .shareReq "a.pdf" { Expires := "", Password := "", Unit := "" }]
    (by rfl)

end FilebrowserSDK
